import Mathlib

/-!
Verification of the tablet-manager agent (go/vt/tabletmanager/agent.go).

The development shallowly embeds the agent's operations as pure Lean
functions.  Interactions with the coordination store, with the external
action-executor process and with the json codec are represented by
explicit inputs describing the outcome of each external call; a Go panic
is represented by an Option none (or a dedicated constructor) that is
propagated, and a returned Go error by an Except error (or an Option
field).  Machine-level details that the agent never relies on are kept
abstract.
-/

/-! ### Byte-wise string order (Go sort.Strings)

Go compares strings byte-wise over their UTF-8 encoding; UTF-8 encoding
preserves code-point order, so the comparison below over code points is
the same order. -/

def charListLe : List Char → List Char → Bool
  | [], _ => true
  | _ :: _, [] => false
  | a :: as, b :: bs =>
    if a.toNat < b.toNat then true
    else if b.toNat < a.toNat then false
    else charListLe as bs

def goStringLe (a b : String) : Bool := charListLe a.toList b.toList

/-- The order relation used by the Go sort on action-node names. -/
def goLeRel (a b : String) : Prop := goStringLe a b = true

instance : DecidableRel goLeRel := fun a b => by unfold goLeRel; infer_instance

/-- Model of Go sort.Strings: sorts the slice ascending in the byte-wise
string order.  (Any correct sort produces the same list: the relation is
total, transitive and antisymmetric on the sorted output.) -/
def sortStrings (xs : List String) : List String := List.insertionSort goLeRel xs

/-! ### Models of the Go standard-library helpers used by agent.go -/

/-- Helper for the model of net.SplitHostPort: splits a character list at
its last colon, returning the parts before and after it. -/
def splitLastColon : List Char → Option (List Char × List Char)
  | [] => none
  | c :: rest =>
    match splitLastColon rest with
    | some (b, a) => some (c :: b, a)
    | none => if c = ':' then some ([], rest) else none

/-- Model of Go net.SplitHostPort (standard library, external to this
repository): splits a network address of the form host:port or
[host]:port at the last colon; an address with no colon, an unbracketed
host containing a colon, or stray brackets yield an error (none).  The
port part is not validated numerically here, exactly as in Go. -/
def goSplitHostPort (addr : String) : Option (String × String) :=
  match splitLastColon addr.toList with
  | none => none
  | some (before, after) =>
    match before with
    | '[' :: rest =>
      if rest.getLast? = some ']' then some (String.mk rest.dropLast, String.mk after)
      else none
    | _ =>
      if before.contains ':' || before.contains '[' || before.contains ']' ||
          after.contains '[' || after.contains ']' then none
      else some (String.mk before, String.mk after)

/-- Helper for the model of strconv.ParseInt: a nonempty all-digit
character list read as a decimal natural number. -/
def parseDecDigits (cs : List Char) : Option Nat :=
  if cs = [] then none
  else if cs.all (fun c => c.isDigit) then
    some (cs.foldl (fun acc c => acc * 10 + (c.toNat - 48)) 0)
  else none

/-- Model of Go strconv.ParseInt(s, 10, 16) (standard library, external to
this repository): an optional sign followed by decimal digits, with the
value required to fit a signed 16-bit integer; anything else is an error
(none).  On overflow Go returns an error as well, which is all the agent
observes. -/
def goParseIntBase10Bit16 (s : String) : Option Int :=
  match s.toList with
  | '+' :: rest =>
    (parseDecDigits rest).bind (fun n => if n ≤ 32767 then some (n : Int) else none)
  | '-' :: rest =>
    (parseDecDigits rest).bind (fun n => if n ≤ 32768 then some (-(n : Int)) else none)
  | cs =>
    (parseDecDigits cs).bind (fun n => if n ≤ 32767 then some (n : Int) else none)

/-! ### Data model -/

/-- The fields of the cached tablet record that the modelled code paths
read: numeric unique id, resolved query-service address and resolved
database-engine address. -/
structure TabletInfo where
  uid : Nat
  addr : String
  mysqlAddr : String
deriving DecidableEq, Repr

/-- One serving-address entry: keyed by replica id, carrying a host and a
named-endpoint port map.  The Go field NamedPortMap is a map[string]int;
it is modelled as an association list, and a Go map value is shared
between a struct and any copy of that struct. -/
structure VtnsAddr where
  uid : Nat
  host : String
  namedPortMap : List (String × Int)
deriving DecidableEq, Repr

/-- The decoded serving-address directory value: an ordered collection of
address entries. -/
structure Addrs where
  entries : List VtnsAddr
deriving DecidableEq, Repr

/-- Reading a Go map: a missing key yields the zero value (0). -/
def mapGet (m : List (String × Int)) (k : String) : Int :=
  match m.find? (fun p => p.1 = k) with
  | some p => p.2
  | none => 0

/-- Writing a Go map: replace the binding if the key is present, insert it
otherwise. -/
def mapSet : List (String × Int) → String → Int → List (String × Int)
  | [], k, v => [(k, v)]
  | p :: rest, k, v => if p.1 = k then (k, v) :: rest else p :: mapSet rest k v

/-- Modelled from the spec: naming.NewAddrs (the naming package is not
part of this source tree) produces an empty ordered collection of address
entries. -/
def newAddrs : Addrs := ⟨[]⟩

/-- Modelled from the spec: naming.NewAddr (the naming package is not
part of this source tree) builds a fresh address entry keyed by the
replica id, with the given host and no named ports recorded yet. -/
def newAddr (uid : Nat) (host : String) : VtnsAddr := ⟨uid, host, []⟩

/-! ### splitHostPort, resolveAddr, vtnsAddrForTablet -/

/-- Embedding of splitHostPort (agent.go lines 254-264): both a
SplitHostPort error and a ParseInt error are turned into a panic, never
into a returned error; the panic is modelled as none. -/
def splitHostPort (addr : String) : Option (String × Int) :=
  match goSplitHostPort addr with
  | none => none
  | some (host, port) =>
    match goParseIntBase10Bit16 port with
    | none => none
    | some p => some (host, p)

/-- Embedding of resolveAddr (agent.go lines 267-277): fills in the local
hostname when the host part is blank.  The hostname is passed in (its
lookup is an external call); a splitHostPort panic propagates. -/
def resolveAddr (hostname : String) (addr : String) : Option String :=
  match splitHostPort addr with
  | none => none
  | some (host, port) =>
    let h := if host = "" then hostname else host
    some (h ++ ":" ++ toString port)

/-- Embedding of vtnsAddrForTablet (agent.go lines 279-286): builds the
new serving-address entry for this tablet from its resolved addresses; a
splitHostPort panic propagates (none). -/
def vtnsAddrForTablet (t : TabletInfo) : Option VtnsAddr :=
  match splitHostPort t.addr with
  | none => none
  | some (host, port) =>
    let entry := newAddr t.uid host
    let entry2 := { entry with namedPortMap := mapSet entry.namedPortMap "_vtocc" port }
    match splitHostPort t.mysqlAddr with
    | none => none
    | some (_host2, port2) =>
      some { entry2 with namedPortMap := mapSet entry2.namedPortMap "_mysql" port2 }

/-! ### updateEndpoints and the conditional write -/

/-- A store stat, as handed to a conditional-write callback; the agent
only ever tests it against nil. -/
structure Stat where
  version : Nat
deriving DecidableEq, Repr

/-- Embedding of the for-range scan inside updateEndpoints (agent.go
lines 227-243).  Go iterates over copies of the slice elements: the
assignment entry.Host = host writes into the loop copy and is lost when
the iteration ends, while the assignments through entry.NamedPortMap go
into the map value shared with the slice element and persist; the model
therefore keeps the stored host and applies only the port-map writes.
The break stops at the first entry whose uid matches.  Returns the
resulting entry list together with the foundTablet flag; none models a
panic escaping from splitHostPort. -/
def scanEntries (t : TabletInfo) : List VtnsAddr → Option (List VtnsAddr × Bool)
  | [] => some ([], false)
  | entry :: rest =>
    if entry.uid = t.uid then
      let vtAddr := entry.host ++ ":" ++ toString (mapGet entry.namedPortMap "_vtocc")
      let mysqlAddr := entry.host ++ ":" ++ toString (mapGet entry.namedPortMap "_mysql")
      if vtAddr != t.addr || mysqlAddr != t.mysqlAddr then
        match splitHostPort t.addr with
        | none => none
        | some (_host, port) =>
          match splitHostPort t.mysqlAddr with
          | none => none
          | some (_host2, port2) =>
            some ({ entry with
                      namedPortMap := mapSet (mapSet entry.namedPortMap "_vtocc" port)
                        "_mysql" port2 } :: rest, true)
      else some (entry :: rest, true)
    else
      match scanEntries t rest with
      | none => none
      | some (rest2, found) => some (entry :: rest2, found)

/-- Outcome of the updateEndpoints callback: the skipUpdateErr sentinel,
a json decode error, the new decoded value handed to the conditional
write, or an escaping panic. -/
inductive UpdateResult where
  | panicked
  | skipUpdate
  | jsonError (msg : String)
  | ok (addrs : Addrs)
deriving DecidableEq, Repr

/-- Embedding of updateEndpoints (agent.go lines 212-252).  The json
decoder (encoding/json, external) is passed in as the outcome-producing
function unmarshal; the final value is returned in decoded form, the
caller being responsible for serialization. -/
def updateEndpoints (t : TabletInfo) (unmarshal : String → Except String Addrs)
    (oldValue : String) (oldStat : Option Stat) : UpdateResult :=
  match oldStat with
  | none => .skipUpdate
  | some _ =>
    if oldValue ≠ "" then
      match unmarshal oldValue with
      | .error e => .jsonError e
      | .ok addrs =>
        match scanEntries t addrs.entries with
        | none => .panicked
        | some (entries2, foundTablet) =>
          if !foundTablet then
            match vtnsAddrForTablet t with
            | none => .panicked
            | some a => .ok ⟨entries2 ++ [a]⟩
          else .ok ⟨entries2⟩
    else
      match vtnsAddrForTablet t with
      | none => .panicked
      | some a => .ok ⟨newAddrs.entries ++ [a]⟩

/-- What one zk.RetryChange call did: the store content afterwards, how
many store writes were performed, and the callback result. -/
structure ChangeOutcome where
  node : Option String
  writes : Nat
  result : UpdateResult
deriving DecidableEq, Repr

/-- Model of zk.RetryChange (external store client, as assumed by the
code): the current node is read (a missing node presents oldValue = ""
and a nil stat to the callback); the value computed by the callback is
written back, and a callback error aborts the call with no write and is
returned to the caller.  Version-conflict retries re-run the same pure
computation and are therefore not modelled separately. -/
def retryChange (marshal : Addrs → String) (node : Option String)
    (f : String → Option Stat → UpdateResult) : ChangeOutcome :=
  let oldValue := node.getD ""
  let oldStat : Option Stat := node.map (fun _ => ⟨0⟩)
  match f oldValue oldStat with
  | .ok a => ⟨some (marshal a), 1, .ok a⟩
  | r => ⟨node, 0, r⟩

/-- Observable outcome of the serving-address publish: store content,
number of writes, the error surfaced to the caller, whether the
distinguished skipped-update warning was logged, and whether a panic
escaped. -/
structure PublishOutcome where
  node : Option String
  writes : Nat
  err : Option String
  skippedWarning : Bool
  panicked : Bool
deriving DecidableEq, Repr

/-- Embedding of the conditional-write stage of verifyZkServingAddrs
(agent.go lines 197-205), entered once the serving-type and shard-record
gates have passed: runs updateEndpoints under RetryChange and converts
the skipUpdateErr sentinel into a nil error plus the skipped warning. -/
def publishServingAddrs (t : TabletInfo) (unmarshal : String → Except String Addrs)
    (marshal : Addrs → String) (node : Option String) : PublishOutcome :=
  let out := retryChange marshal node (updateEndpoints t unmarshal)
  match out.result with
  | .skipUpdate => ⟨out.node, out.writes, none, true, false⟩
  | .jsonError e => ⟨out.node, out.writes, some e, false, false⟩
  | .panicked => ⟨out.node, out.writes, none, false, true⟩
  | .ok _ => ⟨out.node, out.writes, none, false, false⟩

/-! ### Tablet record cache -/

/-- Embedding of ActionAgent.readTablet (agent.go lines 52-62): the
result of the external ReadTablet store read is passed in; on success the
cached record pointer is replaced wholesale under the mutex, on failure
the error is returned and the cache is left untouched.  Returns the cache
after the call together with the returned error value. -/
def readTablet (readResult : Except String TabletInfo) (cache : Option TabletInfo) :
    Option TabletInfo × Except String Unit :=
  match readResult with
  | .error e => (cache, .error e)
  | .ok t => (some t, .ok ())

/-- Embedding of ActionAgent.Tablet (agent.go lines 64-69): returns the
cached record pointer under the mutex. -/
def agentTablet (cache : Option TabletInfo) : Option TabletInfo := cache

/-! ### Bootstrap node creation -/

/-- Error code carried by a store error, as inspected by verifyZkPaths. -/
inductive ZkCode where
  | znodeexists
  | other (msg : String)
deriving DecidableEq, Repr

/-- A store error, with the code the agent inspects. -/
structure ZkError where
  code : ZkCode
deriving DecidableEq, Repr

/-- Mirrors the guard after each Create call in verifyZkPaths: the call
is fatal exactly when it failed with a code other than ZNODEEXISTS. -/
def createFatal : Except ZkError String → Option ZkError
  | .error e => if e.code ≠ ZkCode.znodeexists then some e else none
  | .ok _ => none

/-- Embedding of verifyZkPaths (agent.go lines 157-176): the outcomes of
the two Create calls (replication-tracking node, then action-queue node)
are passed in; a nil cached tablet is a panic (none). -/
def verifyZkPaths (cache : Option TabletInfo)
    (createReplication createAction : Except ZkError String) :
    Option (Except ZkError Unit) :=
  match cache with
  | none => none
  | some _ =>
    match createFatal createReplication with
    | some e => some (.error e)
    | none =>
      match createFatal createAction with
      | some e => some (.error e)
      | none => some (.ok ())

/-! ### Action dispatch and queue drain -/

/-- An action node payload: action kind and guid (agent.go uses exactly
these two fields plus the node path). -/
structure ActionNode where
  action : String
  actionGuid : String
deriving DecidableEq, Repr

/-- Outcome of the external vtaction process: either the process could
not be spawned, or it ran to completion with an exit code and combined
output. -/
inductive ExecResult where
  | spawnFailed (msg : String)
  | exited (code : Nat) (output : String)
deriving DecidableEq, Repr

/-- Model of exec.Cmd.CombinedOutput's error result: non-nil both when
the process could not be started and when it exited with a nonzero
status; nil only on exit status 0. -/
def combinedOutputErr : ExecResult → Option String
  | .spawnFailed m => some m
  | .exited code _ => if code = 0 then none else some "exit status nonzero"

/-- The outcomes of the external calls made while dispatching one action
node: the store Get of the payload, the ActionNodeFromJson decode of that
payload (actionnode code outside this file's source, modelled by its
outcome), the executor run, and the ReadTablet store read behind the
cache refresh. -/
structure DispatchEnv where
  getResult : Except String String
  decodeResult : Except String ActionNode
  execResult : ExecResult
  readTabletResult : Except String TabletInfo

/-- What one dispatchAction call did: whether the external executor was
invoked, whether the cache refresh was attempted afterwards, the cache
after the call, and how many error and warning log lines were written. -/
structure DispatchOutcome where
  executed : Bool
  refreshAttempted : Bool
  cache : Option TabletInfo
  errorLogs : Nat
  warningLogs : Nat
deriving DecidableEq, Repr

/-- Embedding of dispatchAction (agent.go lines 100-137): a Get failure
or a decode failure is logged and the dispatch returns without invoking
the executor; any CombinedOutput error is logged and the dispatch returns
without refreshing the cache; after a successful run the cache is
refreshed, a refresh failure being logged as a warning only. -/
def dispatchAction (env : DispatchEnv) (cache : Option TabletInfo) : DispatchOutcome :=
  match env.getResult with
  | .error _ => ⟨false, false, cache, 1, 0⟩
  | .ok _data =>
    match env.decodeResult with
    | .error _ => ⟨false, false, cache, 1, 0⟩
    | .ok _node =>
      match combinedOutputErr env.execResult with
      | some _ => ⟨true, false, cache, 1, 0⟩
      | none =>
        match readTablet env.readTabletResult cache with
        | (c2, .error _) => ⟨true, true, c2, 0, 1⟩
        | (c2, .ok _) => ⟨true, true, c2, 0, 0⟩

/-- A children watch handle, identified abstractly. -/
abbrev Watch := Nat

/-- The outcomes of the external calls made during one queue drain: the
ChildrenW listing (children names and the new watch, or a store error)
and, per child name, the call outcomes for its dispatch. -/
structure QueueEnv where
  childrenResult : Except String (List String × Watch)
  nodeEnv : String → DispatchEnv

/-- What one handleActionQueue call did: the watch returned (none when
the listing failed), the error returned, the dispatched (actionPath,
outcome) pairs in dispatch order, and the cache after the drain. -/
structure QueueOutcome where
  watch : Option Watch
  err : Option String
  dispatched : List (String × DispatchOutcome)
  cache : Option TabletInfo
deriving DecidableEq, Repr

/-- The dispatch loop body of handleActionQueue: dispatches the given
children one at a time, in list order, threading the cache through. -/
def processChildren (zkActionPath : String) (nodeEnv : String → DispatchEnv) :
    Option TabletInfo → List String → Option TabletInfo × List (String × DispatchOutcome)
  | cache, [] => (cache, [])
  | cache, c :: rest =>
    let o := dispatchAction (nodeEnv c) cache
    let r := processChildren zkActionPath nodeEnv o.cache rest
    (r.1, (zkActionPath ++ "/" ++ c, o) :: r.2)

/-- Embedding of handleActionQueue (agent.go lines 139-155): a listing
failure surfaces the error with no work done; otherwise the children are
sorted ascending and dispatched one at a time in that order. -/
def handleActionQueue (zkActionPath : String) (env : QueueEnv)
    (cache : Option TabletInfo) : QueueOutcome :=
  match env.childrenResult with
  | .error e => ⟨none, some e, [], cache⟩
  | .ok (children, w) =>
    if children.length > 0 then
      let sorted := sortStrings children
      let r := processChildren zkActionPath env.nodeEnv cache sorted
      ⟨some w, none, r.2, r.1⟩
    else ⟨some w, none, [], cache⟩

/-! ### Steady-state event loop -/

/-- The observable operations of one event-loop turn, with each drain
numbered in call order; a wait op records which drain's watch is being
waited on. -/
inductive LoopOp where
  | drain (id : Nat)
  | wait (id : Nat)
  | warn
  | sleepBackoff
deriving DecidableEq, Repr

/-- The watch event as inspected by the loop: Ok() and whether the type
is EVENT_CHILD. -/
structure ZkEvent where
  ok : Bool
  isChildEvent : Bool
deriving DecidableEq, Repr

/-- The external outcomes of one loop iteration: the error returned by
the top-of-loop drain, the event received on its watch (consulted only
when that drain succeeded), and the error returned by the drain performed
inside the event branch, which the code discards. -/
structure LoopEnv where
  drainErr : Option String
  event : ZkEvent
  innerDrainErr : Option String

/-- Embedding of one iteration of actionEventLoop (agent.go lines
334-355), as the operation trace it produces, with the next unused drain
number threaded through: a failed top-of-loop drain logs and sleeps; an
un-Ok event logs and sleeps; an EVENT_CHILD event runs one more drain
whose returned watch and error are both discarded with no log and no
sleep; any other event falls through. -/
def loopIter (nextId : Nat) (env : LoopEnv) : List LoopOp × Nat :=
  match env.drainErr with
  | some _ => ([.drain nextId, .warn, .sleepBackoff], nextId + 1)
  | none =>
    if !env.event.ok then
      ([.drain nextId, .wait nextId, .warn, .sleepBackoff], nextId + 1)
    else if env.event.isChildEvent then
      ([.drain nextId, .wait nextId, .drain (nextId + 1)], nextId + 2)
    else
      ([.drain nextId, .wait nextId], nextId + 1)

/-- The trace of the first n iterations of the loop, given the external
outcomes of each iteration. -/
def loopTrace (envs : Nat → LoopEnv) : Nat → Nat → List LoopOp
  | _, 0 => []
  | nextId, n + 1 =>
    let r := loopIter nextId (envs 0)
    r.1 ++ loopTrace (fun i => envs (i + 1)) r.2 n

/-- Whether an Except value is a success. -/
def exceptOk : Except ε α → Bool
  | .ok _ => true
  | .error _ => false

/-! ### Concrete inputs used by individual claims -/

/-- Dispatch call outcomes where the payload is read and decoded but the
executed action exits with status 1 (the spawn itself succeeded). -/
def c1CexEnv : DispatchEnv :=
  ⟨.ok "payload", .ok ⟨"Ping", "guid-1"⟩, .exited 1 "action output", .ok ⟨1, "h:1", "h:2"⟩⟩

/-- Dispatch call outcomes where the action succeeds (exit 0) and the
subsequent cache refresh read fails. -/
def c1WitnessEnv : DispatchEnv :=
  ⟨.ok "payload", .ok ⟨"Ping", "guid-2"⟩, .exited 0 "ok", .error "store read failed"⟩

/-- A tablet whose resolved addresses moved to a new host while the ports
stayed the same. -/
def c2Tablet : TabletInfo := ⟨1, "newhost:6510", "newhost:3306"⟩

/-- The serving-address entry already stored for that tablet, still
recording the old host. -/
def c2StoredEntry : VtnsAddr := ⟨1, "oldhost", [("_vtocc", 6510), ("_mysql", 3306)]⟩

/-- Json decode outcome for the stored directory value. -/
def c2Unmarshal : String → Except String Addrs := fun _ => .ok ⟨[c2StoredEntry]⟩

/-- Benign dispatch call outcomes used for the queue-order witness. -/
def c3NodeEnv : String → DispatchEnv :=
  fun _ => ⟨.ok "d", .ok ⟨"Ping", "g"⟩, .exited 0 "", .ok ⟨1, "h:1", "h:2"⟩⟩

/-- Dispatch call outcomes whose payload read succeeds but whose decode
fails. -/
def c5BadEnv : DispatchEnv :=
  ⟨.ok "not-json", .error "unexpected end of input", .exited 0 "", .ok ⟨1, "h:1", "h:2"⟩⟩

/-- Per-child call outcomes where the middle node of the drain is
malformed and the others are well-formed. -/
def c5NodeEnv : String → DispatchEnv :=
  fun c => if c = "action-0000000002" then c5BadEnv else c3NodeEnv c

/-! ### Helper lemmas -/

theorem charListLe_total (a b : List Char) : charListLe a b = true ∨ charListLe b a = true := by
  induction a generalizing b with
  | nil => left; rfl
  | cons x xs ih =>
    cases b with
    | nil => right; rfl
    | cons y ys =>
      rcases Nat.lt_trichotomy x.toNat y.toNat with h | h | h
      · left; simp [charListLe, h]
      · rcases ih ys with h2 | h2
        · left; simp [charListLe, h, h2]
        · right; simp [charListLe, h, h2]
      · right; simp [charListLe, h, Nat.lt_asymm h]

theorem charListLe_trans (a b c : List Char) (h1 : charListLe a b = true)
    (h2 : charListLe b c = true) : charListLe a c = true := by
  induction a generalizing b c with
  | nil => rfl
  | cons x xs ih =>
    cases b with
    | nil => simp [charListLe] at h1
    | cons y ys =>
      cases c with
      | nil => simp [charListLe] at h2
      | cons z zs =>
        simp only [charListLe] at h1 h2 ⊢
        rcases Nat.lt_trichotomy x.toNat y.toNat with hxy | hxy | hxy
        · rcases Nat.lt_trichotomy y.toNat z.toNat with hyz | hyz | hyz
          · simp [Nat.lt_trans hxy hyz]
          · simp [hyz ▸ hxy]
          · simp [Nat.lt_asymm hyz, hyz] at h2
        · simp only [hxy, lt_self_iff_false, if_false] at h1
          rcases Nat.lt_trichotomy y.toNat z.toNat with hyz | hyz | hyz
          · simp [hxy ▸ hyz]
          · simp only [hyz, lt_self_iff_false, if_false] at h2
            simp only [hxy, hyz, lt_self_iff_false, if_false]
            exact ih ys zs h1 h2
          · simp [Nat.lt_asymm hyz, hyz] at h2
        · simp [Nat.lt_asymm hxy, hxy] at h1

instance : IsTotal String goLeRel := ⟨fun a b => charListLe_total a.toList b.toList⟩

instance : IsTrans String goLeRel := ⟨fun a b c => charListLe_trans a.toList b.toList c.toList⟩

theorem processChildren_fst_map (ap : String) (ne : String → DispatchEnv)
    (cache : Option TabletInfo) (cs : List String) :
    ((processChildren ap ne cache cs).2).map Prod.fst = cs.map (fun c => ap ++ "/" ++ c) := by
  induction cs generalizing cache with
  | nil => rfl
  | cons c rest ih => simp [processChildren, ih]

theorem scanEntries_not_found (t : TabletInfo) (es : List VtnsAddr)
    (h : ∀ e ∈ es, e.uid ≠ t.uid) : scanEntries t es = some (es, false) := by
  induction es with
  | nil => rfl
  | cons x rest ih =>
    have hx : x.uid ≠ t.uid := h x (List.mem_cons_self x rest)
    have ihr := ih (fun e he => h e (List.mem_cons_of_mem x he))
    simp [scanEntries, hx, ihr]

theorem vtnsAddrForTablet_eq (t : TabletInfo) (h1 : String) (p1 : Int) (h2 : String) (p2 : Int)
    (ha : splitHostPort t.addr = some (h1, p1)) (hm : splitHostPort t.mysqlAddr = some (h2, p2)) :
    vtnsAddrForTablet t = some ⟨t.uid, h1, [("_vtocc", p1), ("_mysql", p2)]⟩ := by
  simp [vtnsAddrForTablet, ha, hm, newAddr, mapSet]

theorem loopIter_head (id : Nat) (env : LoopEnv) :
    ∃ rest, (loopIter id env).1 = LoopOp.drain id :: rest := by
  rcases env with ⟨de, ⟨ok2, ce⟩, ie⟩
  cases de <;> cases ok2 <;> cases ce <;> exact ⟨_, rfl⟩

/-! ### Claim theorems -/

/-- C1 (counterexample): an action that the executor ran to completion
with a nonzero exit status does not trigger a Tablet Record Cache
refresh — dispatchAction returns before the refresh on any CombinedOutput
error, contradicting the claim that the refresh happens after success or
failure of the executed action. -/
theorem dispatchAction_nonzero_exit_skips_refresh_cex :
    c1CexEnv.execResult = ExecResult.exited 1 "action output"
    ∧ (dispatchAction c1CexEnv none).executed = true
    ∧ ¬ ((dispatchAction c1CexEnv none).refreshAttempted = true) := by
  refine ⟨rfl, rfl, ?_⟩
  decide

/-- C1 (amended): once the payload is read and decoded, the refresh is
attempted exactly when the executor invocation returned no error (exit
status 0); when it is attempted and the underlying read fails, a single
warning is logged, the cache is left unchanged and the dispatch still
completes; on an executor error one error line is logged instead. -/
theorem dispatchAction_refresh_characterization (env : DispatchEnv) (cache : Option TabletInfo)
    (d : String) (node : ActionNode)
    (hg : env.getResult = .ok d) (hd : env.decodeResult = .ok node) :
    (dispatchAction env cache).refreshAttempted = (combinedOutputErr env.execResult).isNone
    ∧ (dispatchAction env cache).executed = true
    ∧ (dispatchAction env cache).warningLogs =
        (if (combinedOutputErr env.execResult).isNone && !(exceptOk env.readTabletResult)
          then 1 else 0)
    ∧ (dispatchAction env cache).errorLogs =
        (if (combinedOutputErr env.execResult).isNone = true then 0 else 1)
    ∧ (dispatchAction env cache).cache =
        (if (combinedOutputErr env.execResult).isNone = true
          then (readTablet env.readTabletResult cache).1 else cache) := by
  rcases hc : combinedOutputErr env.execResult with _ | c <;>
    rcases hr : env.readTabletResult with e | t <;>
      simp [dispatchAction, hg, hd, hc, hr, readTablet, exceptOk]

/-- C1 (witness): concrete instance of the amended theorem at an exit-0
action whose follow-up cache refresh read fails. -/
theorem dispatchAction_refresh_characterization_witness :
    (dispatchAction c1WitnessEnv none).refreshAttempted
        = (combinedOutputErr c1WitnessEnv.execResult).isNone
    ∧ (dispatchAction c1WitnessEnv none).executed = true
    ∧ (dispatchAction c1WitnessEnv none).warningLogs =
        (if (combinedOutputErr c1WitnessEnv.execResult).isNone
            && !(exceptOk c1WitnessEnv.readTabletResult) then 1 else 0)
    ∧ (dispatchAction c1WitnessEnv none).errorLogs =
        (if (combinedOutputErr c1WitnessEnv.execResult).isNone = true then 0 else 1)
    ∧ (dispatchAction c1WitnessEnv none).cache =
        (if (combinedOutputErr c1WitnessEnv.execResult).isNone = true
          then (readTablet c1WitnessEnv.readTabletResult none).1 else none) :=
  dispatchAction_refresh_characterization c1WitnessEnv none "payload" ⟨"Ping", "guid-2"⟩ rfl rfl

/-- C2: at a stored entry whose host is stale while the ports are
current, the update branch is taken (the recorded query address differs
from the resolved one), yet the value handed to the conditional write
still records the old host: the for-range loop copies the entry struct,
so the write to its Host field is lost, and only the port-map writes
(through the shared map) survive.  The claim that host and ports are
overwritten in place is false on this input. -/
theorem updateEndpoints_stale_host_write_lost :
    splitHostPort c2Tablet.addr = some ("newhost", 6510)
    ∧ c2StoredEntry.host ++ ":" ++ toString (mapGet c2StoredEntry.namedPortMap "_vtocc")
        ≠ c2Tablet.addr
    ∧ updateEndpoints c2Tablet c2Unmarshal "stored-json" (some ⟨7⟩)
        = .ok ⟨[c2StoredEntry]⟩
    ∧ updateEndpoints c2Tablet c2Unmarshal "stored-json" (some ⟨7⟩)
        ≠ .ok ⟨[⟨1, "newhost", [("_vtocc", 6510), ("_mysql", 3306)]⟩]⟩ := by
  refine ⟨by decide, by decide, by decide, by decide⟩

/-- C3: for every non-empty list of child names returned by the
children-with-watch call, in any order, the drain dispatches the nodes
one at a time in ascending byte-wise name order: the dispatched action
paths are exactly the sorted children prefixed with the queue path, the
sorted list is a permutation of the returned children and is sorted, no
error is returned and the watch is handed back. -/
theorem handleActionQueue_dispatches_sorted (ap : String) (children : List String) (w : Watch)
    (ne : String → DispatchEnv) (cache : Option TabletInfo) (hne : children ≠ []) :
    ((handleActionQueue ap ⟨.ok (children, w), ne⟩ cache).dispatched).map Prod.fst
        = (sortStrings children).map (fun c => ap ++ "/" ++ c)
    ∧ (sortStrings children).Perm children
    ∧ List.Sorted goLeRel (sortStrings children)
    ∧ (handleActionQueue ap ⟨.ok (children, w), ne⟩ cache).err = none
    ∧ (handleActionQueue ap ⟨.ok (children, w), ne⟩ cache).watch = some w := by
  have hlen : 0 < children.length := List.length_pos.mpr hne
  refine ⟨?_, List.perm_insertionSort goLeRel children,
    List.sorted_insertionSort goLeRel children, ?_, ?_⟩ <;>
    simp [handleActionQueue, hlen, processChildren_fst_map]

/-- C3 (witness): concrete drain over three children returned out of
order. -/
theorem handleActionQueue_dispatches_sorted_witness :
    ((handleActionQueue "/zk/t/action" ⟨.ok (["n2", "n1", "n3"], 5), c3NodeEnv⟩ none).dispatched).map
        Prod.fst
        = (sortStrings ["n2", "n1", "n3"]).map (fun c => "/zk/t/action" ++ "/" ++ c)
    ∧ (sortStrings ["n2", "n1", "n3"]).Perm ["n2", "n1", "n3"]
    ∧ List.Sorted goLeRel (sortStrings ["n2", "n1", "n3"])
    ∧ (handleActionQueue "/zk/t/action" ⟨.ok (["n2", "n1", "n3"], 5), c3NodeEnv⟩ none).err = none
    ∧ (handleActionQueue "/zk/t/action" ⟨.ok (["n2", "n1", "n3"], 5), c3NodeEnv⟩ none).watch
        = some 5 :=
  handleActionQueue_dispatches_sorted "/zk/t/action" ["n2", "n1", "n3"] 5 c3NodeEnv none
    (by decide)

/-- C5: a node whose payload fails to decode is logged (one error line)
and skipped — the executor is not invoked, no refresh happens and the
cache is untouched — while the drain still dispatches every child of the
listing, whatever the per-node outcomes are, and returns no error, so
subsequent well-formed nodes are still dispatched. -/
theorem handleActionQueue_malformed_node_skipped (ap : String) (children : List String)
    (w : Watch) (ne : String → DispatchEnv) (cache cache2 : Option TabletInfo)
    (env : DispatchEnv) (d e : String)
    (hg : env.getResult = .ok d) (hd : env.decodeResult = .error e) :
    ((handleActionQueue ap ⟨.ok (children, w), ne⟩ cache).dispatched).map Prod.fst
        = (sortStrings children).map (fun c => ap ++ "/" ++ c)
    ∧ (handleActionQueue ap ⟨.ok (children, w), ne⟩ cache).err = none
    ∧ dispatchAction env cache2 = ⟨false, false, cache2, 1, 0⟩ := by
  refine ⟨?_, ?_, by simp [dispatchAction, hg, hd]⟩ <;>
    (by_cases hl : 0 < children.length
     · simp [handleActionQueue, hl, processChildren_fst_map]
     · have hnil : children = [] := List.eq_nil_of_length_eq_zero (Nat.eq_zero_of_not_pos hl)
       subst hnil
       simp [handleActionQueue, sortStrings])

/-- C5 (witness): a three-node drain whose middle node is malformed; the
dispatch list still covers all three nodes in order and the malformed
dispatch only logs. -/
theorem handleActionQueue_malformed_node_skipped_witness :
    ((handleActionQueue "/zk/t/action"
          ⟨.ok (["action-0000000002", "action-0000000001", "action-0000000003"], 9), c5NodeEnv⟩
          none).dispatched).map Prod.fst
        = (sortStrings ["action-0000000002", "action-0000000001", "action-0000000003"]).map
            (fun c => "/zk/t/action" ++ "/" ++ c)
    ∧ (handleActionQueue "/zk/t/action"
          ⟨.ok (["action-0000000002", "action-0000000001", "action-0000000003"], 9), c5NodeEnv⟩
          none).err = none
    ∧ dispatchAction c5BadEnv none = ⟨false, false, none, 1, 0⟩ :=
  handleActionQueue_malformed_node_skipped "/zk/t/action"
    ["action-0000000002", "action-0000000001", "action-0000000003"] 9 c5NodeEnv none none
    c5BadEnv "not-json" "unexpected end of input" rfl rfl

/-- C4: when the conditional write is reached and the directory entry
does not exist (nil stat), the publish performs zero store writes, leaves
the store unchanged, returns no error, and logs the distinguished
skipped-update warning. -/
theorem publishServingAddrs_missing_entry_skips (t : TabletInfo)
    (unmarshal : String → Except String Addrs) (marshal : Addrs → String) :
    publishServingAddrs t unmarshal marshal none = ⟨none, 0, none, true, false⟩ := rfl

/-- C6: against an existing directory value that decodes to entries none
of which carry this replica's id, the value handed to the conditional
write is exactly the decoded entries, unchanged and in order, with one
new entry appended, built from the replica's resolved host and ports. -/
theorem updateEndpoints_appends_new_entry (t : TabletInfo)
    (unmarshal : String → Except String Addrs) (oldValue : String) (st : Stat)
    (addrs : Addrs) (h1 : String) (p1 : Int) (h2 : String) (p2 : Int)
    (hu : unmarshal oldValue = .ok addrs) (hne : oldValue ≠ "")
    (hnf : ∀ e ∈ addrs.entries, e.uid ≠ t.uid)
    (ha : splitHostPort t.addr = some (h1, p1))
    (hm : splitHostPort t.mysqlAddr = some (h2, p2)) :
    updateEndpoints t unmarshal oldValue (some st)
      = .ok ⟨addrs.entries ++ [⟨t.uid, h1, [("_vtocc", p1), ("_mysql", p2)]⟩]⟩ := by
  simp [updateEndpoints, hne, hu, scanEntries_not_found t addrs.entries hnf,
    vtnsAddrForTablet_eq t h1 p1 h2 p2 ha hm]

/-- C6 (witness): concrete append of replica 1's entry to a directory
value holding only replica 2's entry. -/
theorem updateEndpoints_appends_new_entry_witness :
    updateEndpoints ⟨1, "h1:700", "h1:701"⟩
        (fun _ => .ok ⟨[⟨2, "h2", [("_vtocc", 800)]⟩]⟩) "stored" (some ⟨3⟩)
      = .ok ⟨[⟨2, "h2", [("_vtocc", 800)]⟩] ++ [⟨1, "h1", [("_vtocc", 700), ("_mysql", 701)]⟩]⟩ :=
  updateEndpoints_appends_new_entry ⟨1, "h1:700", "h1:701"⟩
    (fun _ => .ok ⟨[⟨2, "h2", [("_vtocc", 800)]⟩]⟩) "stored" ⟨3⟩
    ⟨[⟨2, "h2", [("_vtocc", 800)]⟩]⟩ "h1" 700 "h1" 701 rfl (by decide)
    (by decide) (by decide) (by decide)

/-- C7: during bootstrap node creation, an already-exists outcome on
either the replication-tracking node or the action-queue node is treated
as success — in particular a second bootstrap, where both creations
report already-exists, returns success — while a creation error with any
other code is returned to the caller. -/
theorem verifyZkPaths_idempotent (t : TabletInfo) (r2 : Except ZkError String) (p : String)
    (e : ZkError) (hno : e.code ≠ ZkCode.znodeexists) :
    verifyZkPaths (some t) (.error ⟨ZkCode.znodeexists⟩) (.error ⟨ZkCode.znodeexists⟩)
        = some (.ok ())
    ∧ verifyZkPaths (some t) (.error ⟨ZkCode.znodeexists⟩) r2 = verifyZkPaths (some t) (.ok p) r2
    ∧ verifyZkPaths (some t) (.ok p) (.error ⟨ZkCode.znodeexists⟩) = some (.ok ())
    ∧ verifyZkPaths (some t) (.error e) r2 = some (.error e)
    ∧ verifyZkPaths (some t) (.ok p) (.error e) = some (.error e) := by
  refine ⟨rfl, ?_, rfl, ?_, ?_⟩ <;> simp [verifyZkPaths, createFatal, hno]

/-- C7 (witness): concrete second bootstrap with both nodes already
present, against a connection-loss error code for contrast. -/
theorem verifyZkPaths_idempotent_witness :
    verifyZkPaths (some ⟨1, "h:1", "h:2"⟩) (.error ⟨ZkCode.znodeexists⟩)
        (.error ⟨ZkCode.znodeexists⟩) = some (.ok ())
    ∧ verifyZkPaths (some ⟨1, "h:1", "h:2"⟩) (.error ⟨ZkCode.znodeexists⟩) (.ok "created")
        = verifyZkPaths (some ⟨1, "h:1", "h:2"⟩) (.ok "rp") (.ok "created")
    ∧ verifyZkPaths (some ⟨1, "h:1", "h:2"⟩) (.ok "rp") (.error ⟨ZkCode.znodeexists⟩)
        = some (.ok ())
    ∧ verifyZkPaths (some ⟨1, "h:1", "h:2"⟩) (.error ⟨ZkCode.other "connection loss"⟩)
        (.ok "created") = some (.error ⟨ZkCode.other "connection loss"⟩)
    ∧ verifyZkPaths (some ⟨1, "h:1", "h:2"⟩) (.ok "rp")
        (.error ⟨ZkCode.other "connection loss"⟩)
        = some (.error ⟨ZkCode.other "connection loss"⟩) :=
  verifyZkPaths_idempotent ⟨1, "h:1", "h:2"⟩ (.ok "created") "rp"
    ⟨ZkCode.other "connection loss"⟩ (by decide)

/-- C8: a refresh whose underlying store read fails returns that error
and leaves the cache exactly as it was, so a subsequent Tablet() call
returns what it returned before; a successful refresh replaces the
cached record wholesale with the read record, and in either case a
reader observes the entire old record or the entire new one. -/
theorem readTablet_error_preserves_cache (cache : Option TabletInfo) (e : String)
    (t : TabletInfo) :
    readTablet (.error e) cache = (cache, .error e)
    ∧ agentTablet (readTablet (.error e) cache).1 = agentTablet cache
    ∧ readTablet (.ok t) cache = (some t, .ok ())
    ∧ ((readTablet (.ok t) cache).1 = agentTablet cache
        ∨ (readTablet (.ok t) cache).1 = some t) :=
  ⟨rfl, rfl, rfl, Or.inr rfl⟩

/-- C9: an address whose port part does not parse as a decimal integer
fitting a signed 16-bit integer, or which is not in host:port form at
all, makes splitHostPort panic rather than return an error; the panic
propagates through vtnsAddrForTablet, resolveAddr and updateEndpoints,
so the publish aborts (distinguished panicked outcome, no error value
surfaced) and startup address resolution aborts likewise. -/
theorem splitHostPort_panics_on_bad_port (t : TabletInfo) (hostname : String)
    (unmarshal : String → Except String Addrs) (marshal : Addrs → String) (st : Stat)
    (hbad : goSplitHostPort t.addr = none ∨
      ∃ hp pp, goSplitHostPort t.addr = some (hp, pp) ∧ goParseIntBase10Bit16 pp = none) :
    splitHostPort t.addr = none
    ∧ vtnsAddrForTablet t = none
    ∧ resolveAddr hostname t.addr = none
    ∧ updateEndpoints t unmarshal "" (some st) = .panicked
    ∧ publishServingAddrs t unmarshal marshal (some "") = ⟨some "", 0, none, false, true⟩ := by
  have hsp : splitHostPort t.addr = none := by
    rcases hbad with h | ⟨hp, pp, h1, h2⟩
    · simp [splitHostPort, h]
    · simp [splitHostPort, h1, h2]
  have hv : vtnsAddrForTablet t = none := by simp [vtnsAddrForTablet, hsp]
  have hu0 : updateEndpoints t unmarshal "" (some ⟨0⟩) = .panicked := by
    simp [updateEndpoints, hv]
  refine ⟨hsp, hv, by simp [resolveAddr, hsp], by simp [updateEndpoints, hv], ?_⟩
  simp [publishServingAddrs, retryChange, hu0]

/-- C9 (witness): port 40000 does not fit a signed 16-bit integer, so an
agent whose query address is localhost:40000 panics in splitHostPort and
the publish aborts. -/
theorem splitHostPort_panics_on_bad_port_witness :
    splitHostPort (⟨3, "localhost:40000", "localhost:3306"⟩ : TabletInfo).addr = none
    ∧ vtnsAddrForTablet ⟨3, "localhost:40000", "localhost:3306"⟩ = none
    ∧ resolveAddr "myhost" (⟨3, "localhost:40000", "localhost:3306"⟩ : TabletInfo).addr = none
    ∧ updateEndpoints ⟨3, "localhost:40000", "localhost:3306"⟩ (fun _ => .ok ⟨[]⟩) ""
        (some ⟨0⟩) = .panicked
    ∧ publishServingAddrs ⟨3, "localhost:40000", "localhost:3306"⟩ (fun _ => .ok ⟨[]⟩)
        (fun _ => "encoded") (some "") = ⟨some "", 0, none, false, true⟩ :=
  splitHostPort_panics_on_bad_port ⟨3, "localhost:40000", "localhost:3306"⟩ "myhost"
    (fun _ => .ok ⟨[]⟩) (fun _ => "encoded") ⟨0⟩
    (Or.inr ⟨"localhost", "40000", by decide, by decide⟩)

/-- C10: when the top-of-loop drain succeeds and the watch fires with a
child-set-change event, the iteration performs exactly drain, wait,
inner drain — the inner drain's error produces no warning and no
backoff, whatever it is — a wait only ever targets the watch returned by
its own iteration's top drain (so the inner drain's watch is discarded),
and the next iteration begins with a fresh drain before waiting on the
new watch. -/
theorem actionEventLoop_child_event_double_drain (i j k n n2 : Nat) (e : Option String)
    (env2 : LoopEnv) (envs : Nat → LoopEnv)
    (henv : envs 0 = ⟨none, ⟨true, true⟩, e⟩)
    (hwait : LoopOp.wait k ∈ (loopIter j env2).1) :
    (loopIter i (envs 0)).1 = [.drain i, .wait i, .drain (i + 1)]
    ∧ LoopOp.warn ∉ (loopIter i (envs 0)).1
    ∧ LoopOp.sleepBackoff ∉ (loopIter i (envs 0)).1
    ∧ k = j
    ∧ loopTrace envs i (n + 1)
        = [LoopOp.drain i, LoopOp.wait i, LoopOp.drain (i + 1)]
            ++ loopTrace (fun m => envs (m + 1)) (i + 2) n
    ∧ (loopTrace (fun m => envs (m + 1)) (i + 2) (n2 + 1)).head? = some (.drain (i + 2)) := by
  have hiter : loopIter i (envs 0) = ([.drain i, .wait i, .drain (i + 1)], i + 2) := by
    rw [henv]; rfl
  have hkj : k = j := by
    rcases env2 with ⟨de, ⟨ok2, ce⟩, ie⟩
    cases de <;> cases ok2 <;> cases ce <;> simp [loopIter] at hwait <;> simp_all
  have htrace : loopTrace envs i (n + 1)
      = [LoopOp.drain i, LoopOp.wait i, LoopOp.drain (i + 1)]
          ++ loopTrace (fun m => envs (m + 1)) (i + 2) n := by
    simp [loopTrace, hiter]
  obtain ⟨rest, hrest⟩ := loopIter_head (i + 2) ((fun m => envs (m + 1)) 0)
  have hhead : (loopTrace (fun m => envs (m + 1)) (i + 2) (n2 + 1)).head?
      = some (.drain (i + 2)) := by
    simp [loopTrace, hrest]
  exact ⟨congrArg Prod.fst hiter, by simp [hiter], by simp [hiter], hkj, htrace, hhead⟩

/-- C10 (witness): one concrete iteration with a child event whose inner
drain fails, followed by the start of the next iteration. -/
theorem actionEventLoop_child_event_double_drain_witness :
    (loopIter 0 ((fun _ => (⟨none, ⟨true, true⟩, some "ignored"⟩ : LoopEnv)) 0)).1
        = [.drain 0, .wait 0, .drain 1]
    ∧ LoopOp.warn ∉ (loopIter 0 ((fun _ => (⟨none, ⟨true, true⟩, some "ignored"⟩ : LoopEnv)) 0)).1
    ∧ LoopOp.sleepBackoff
        ∉ (loopIter 0 ((fun _ => (⟨none, ⟨true, true⟩, some "ignored"⟩ : LoopEnv)) 0)).1
    ∧ (0 : Nat) = 0
    ∧ loopTrace (fun _ => (⟨none, ⟨true, true⟩, some "ignored"⟩ : LoopEnv)) 0 (0 + 1)
        = [LoopOp.drain 0, LoopOp.wait 0, LoopOp.drain 1]
            ++ loopTrace (fun _ => (⟨none, ⟨true, true⟩, some "ignored"⟩ : LoopEnv)) 2 0
    ∧ (loopTrace (fun _ => (⟨none, ⟨true, true⟩, some "ignored"⟩ : LoopEnv)) 2 (0 + 1)).head?
        = some (.drain 2) :=
  actionEventLoop_child_event_double_drain 0 0 0 0 0 (some "ignored")
    ⟨none, ⟨true, true⟩, some "failed"⟩ (fun _ => ⟨none, ⟨true, true⟩, some "ignored"⟩)
    rfl (by decide)
